import Mathlib

/-!
Verification of the MData marketplace settlement engine against its
specification. Definitions are shallow embeddings of the request handlers
in src/server.js (the Cosmos DB branch, which the duplicate server variant
src/unnamed/part_007 also implements). JavaScript numbers are modelled as
exact rationals, JavaScript missing/null fields as Option, and the
falsiness of 0 and of the empty string is made explicit where the code
relies on it.
-/

namespace MData

/-- Models the JavaScript expression v || d for an optional number: 0 is
falsy, so both a missing field and a stored 0 fall back to the default. -/
def jsOrQ (v : Option ℚ) (d : ℚ) : ℚ :=
  match v with
  | none => d
  | some x => if x = 0 then d else x

/-- Models the JavaScript expression str || null: the empty string is
falsy and becomes null. -/
def optStr (s : String) : Option String :=
  if s = "" then none else some s

/-- Document of the Submissions container: one uploaded asset record.
Field names follow src/server.js. -/
structure Submission where
  id : String
  userId : String
  market_category : String
  quality_score : Option ℚ
  payout : Option ℚ
  sold_to : Option String
  sold_price : Option ℚ
  transaction_date : Option Nat
  status : Option String
deriving DecidableEq, Repr

/-- Entry of an agency cart, as pushed by POST /api/agency/cart. -/
structure CartEntry where
  id : String
  category : String
  addedAt : Nat
deriving DecidableEq, Repr

/-- Document of the Agencies container; the cart field may be absent. -/
structure Agency where
  id : String
  cart : Option (List CartEntry)
deriving DecidableEq, Repr

/-- Document of the Orders container, created by the checkout endpoint. -/
structure PurchaseOrder where
  id : String
  agencyId : String
  items : List String
  totalAmount : ℚ
  razorpayOrderId : String
  status : String
  razorpayPaymentId : Option String
  razorpaySignature : Option String
  paidAt : Option Nat
  createdAt : Nat
deriving DecidableEq, Repr

/-- Document of the Withdrawals container, created by
POST /api/user/withdraw-request. -/
structure Withdrawal where
  id : String
  userId : String
  amount : ℚ
  upiId : Option String
  bankAccount : Option String
  ifsc : Option String
  accountName : Option String
  status : String
  createdAt : Nat
  processedAt : Option Nat
deriving DecidableEq, Repr

/-- Shared persistent state: the four containers the settlement engine
reads and writes. -/
structure St where
  orders : List PurchaseOrder
  agencies : List Agency
  submissions : List Submission
  withdrawals : List Withdrawal
deriving DecidableEq, Repr

/-- Translation of calculatePayout (src/server.js lines 275-283): the
piecewise quality-score-to-payout policy. -/
def calculatePayout (qualityScore : ℚ) : ℚ :=
  if qualityScore < 50 then
    max (1/10) (qualityScore * (1/10))
  else if qualityScore < 80 then
    5 + (qualityScore - 50) * (1/2)
  else
    20 + (qualityScore - 80) * 4

/-- Restatement of the payout policy exactly as the specification words it
(section 4.1), with the middle case guarded by the two-sided condition
50 <= score < 80: used to compare the code against the spec. -/
def basePayoutSpec (score : ℚ) : ℚ :=
  if score < 50 then
    max (1/10) (score * (1/10))
  else if 50 ≤ score ∧ score < 80 then
    5 + (score - 50) * (1/2)
  else
    20 + (score - 80) * 4

/-- Translation of the POST /api/agency/cart duplicate check and push
(src/server.js lines 1396-1413): returns the new cart and whether the add
was accepted (false models the 409 conflict response). -/
def addToCart (cart : List CartEntry) (e : CartEntry) : List CartEntry × Bool :=
  if (cart.find? (fun c => c.category = e.category)).isSome then
    (cart, false)
  else
    (cart ++ [e], true)

/-- Translation of DELETE /api/agency/cart/:itemId (src/server.js lines
1441-1443): drops entries matching the given id by id or by category. -/
def removeFromCart (cart : List CartEntry) (itemId : String) : List CartEntry :=
  cart.filter (fun c => c.id ≠ itemId ∧ c.category ≠ itemId)

/-- One cart operation of the agency cart API. -/
inductive CartOp where
  | add (e : CartEntry)
  | remove (itemId : String)
  | clear
deriving DecidableEq, Repr

/-- Applies one cart operation, as the corresponding handler does. -/
def applyCartOp (cart : List CartEntry) (op : CartOp) : List CartEntry :=
  match op with
  | .add e => (addToCart cart e).1
  | .remove itemId => removeFromCart cart itemId
  | .clear => []

/-- Applies a sequence of cart operations in order. -/
def applyCartOps (cart : List CartEntry) (ops : List CartOp) : List CartEntry :=
  ops.foldl applyCartOp cart

/-- Categories of the entries of a cart are pairwise distinct. -/
def CartCategoriesDistinct (cart : List CartEntry) : Prop :=
  cart.Pairwise (fun a b => a.category ≠ b.category)

/-- Outcome of the purchase endpoint: 400 for missing input, 404 when the
category has no available datasets, success with count and total cost. -/
inductive PurchaseResult where
  | missingInput
  | notFound
  | ok (count : ℕ) (total_cost : ℚ)
deriving DecidableEq, Repr

/-- Unsold items of a category: the category query (line 976) followed by
the unsold filter (line 985). -/
def unsoldInCategory (category : String) (subs : List Submission) : List Submission :=
  (subs.filter (fun i => i.market_category = category)).filter
    (fun i => i.sold_to = none)

/-- Translation of the total quality reduction (src/server.js lines
997-1000): a missing quality score counts as 0. -/
def totalQuality (batch : List Submission) : ℚ :=
  batch.foldl (fun sum i => sum + (i.quality_score).getD 0) 0

/-- Translation of the per-item payout of the purchase loop (src/server.js
lines 1008-1013): proportional to quality when the batch has positive
total quality, an even split otherwise. -/
def itemProceeds (tbv tq : ℚ) (n : ℕ) (q : ℚ) : ℚ :=
  if tq > 0 then tbv * (q / tq) else tbv / n

/-- Translation of the item mutation of the purchase loop (src/server.js
lines 1003-1016): marks the item sold to the agency and records the
proportional payout as both payout and sold price. -/
def sellItemProportional (agencyId : String) (now : Nat) (tbv tq : ℚ) (n : ℕ)
    (sub : Submission) : Submission :=
  let p := itemProceeds tbv tq n ((sub.quality_score).getD 0)
  { sub with
      sold_to := some agencyId
      transaction_date := some now
      payout := some p
      sold_price := some p }

/-- Items bought by one purchase: the first five unsold items of the
category (src/server.js line 994, slice of the unsold list). -/
def purchaseBatch (category : String) (subs : List Submission) : List Submission :=
  (unsoldInCategory category subs).take 5

/-- Translation of POST /api/market/purchase (src/server.js lines
966-1031). The Cosmos upsert of each bought item is modelled as a map
over the container replacing the documents with the bought ids. -/
def purchase (category agencyId : String) (now : Nat) (s : St) : St × PurchaseResult :=
  if category = "" ∨ agencyId = "" then (s, .missingInput)
  else
    let unsoldItems := unsoldInCategory category s.submissions
    if unsoldItems.length = 0 then (s, .notFound)
    else
      let itemsToBuy := purchaseBatch category s.submissions
      let purchasedCount := itemsToBuy.length
      let totalBatchValue := (purchasedCount : ℚ) * 25
      let tq := totalQuality itemsToBuy
      let ids := itemsToBuy.map (fun i => i.id)
      ({ s with
          submissions := s.submissions.map (fun sub =>
            if sub.id ∈ ids then
              sellItemProportional agencyId now totalBatchValue tq purchasedCount sub
            else sub) },
       .ok purchasedCount totalBatchValue)

/-- Translation of one iteration of the bulk checkout loop (src/server.js
lines 1044-1083): a category with no unsold items is skipped, otherwise
the first five unsold items are bought with the same proportional split
as the purchase endpoint; the accumulator carries the container, the
total cost and the total purchased count. -/
def checkoutStep (agencyId : String) (now : Nat)
    (acc : List Submission × ℚ × ℕ) (category : String) :
    List Submission × ℚ × ℕ :=
  let subs := acc.1
  let unsoldItems := unsoldInCategory category subs
  if 0 < unsoldItems.length then
    let itemsToBuy := unsoldItems.take 5
    let n := itemsToBuy.length
    let batchValue := (n : ℚ) * 25
    let tq := totalQuality itemsToBuy
    let ids := itemsToBuy.map (fun i => i.id)
    (subs.map (fun sub =>
        if sub.id ∈ ids then sellItemProportional agencyId now batchValue tq n sub
        else sub),
     acc.2.1 + batchValue, acc.2.2 + n)
  else acc

/-- Translation of the bulk checkout loop over the cart categories
(src/server.js lines 1041-1083). -/
def checkoutLoop (agencyId : String) (now : Nat) (cats : List String)
    (subs : List Submission) : List Submission × ℚ × ℕ :=
  cats.foldl (checkoutStep agencyId now) (subs, 0, 0)

/-- Outcome of the payment verification endpoint: 400 for missing fields,
400 for a signature mismatch, 404 for an unknown order, 200 success. -/
inductive VerifyResult where
  | missingData
  | verificationFailed
  | orderNotFound
  | success
deriving DecidableEq, Repr

/-- Order lookup by provider order reference (src/server.js lines
2243-2248): the query by razorpayOrderId, taking the first result. -/
def findOrderByRazorpayId (rzId : String) (orders : List PurchaseOrder) :
    Option PurchaseOrder :=
  orders.find? (fun o => o.razorpayOrderId = rzId)

/-- Cosmos upsert of an order document: replaces the documents with the
same id, appends when none exists. -/
def upsertOrder (o : PurchaseOrder) (orders : List PurchaseOrder) :
    List PurchaseOrder :=
  if orders.any (fun x => x.id = o.id) then
    orders.map (fun x => if x.id = o.id then o else x)
  else orders ++ [o]

/-- Translation of the order mutation on payment confirmation
(src/server.js lines 2255-2259). -/
def paidOrder (o : PurchaseOrder) (razorpay_payment_id razorpay_signature : String)
    (now : Nat) : PurchaseOrder :=
  { o with
      status := "paid"
      razorpayPaymentId := some razorpay_payment_id
      razorpaySignature := some razorpay_signature
      paidAt := some now }

/-- Translation of the purchased-category resolution (src/server.js lines
2268-2291): each order line is looked up in the agency cart; a line whose
cart entry is missing or has a falsy category falls back to the line id
itself. A missing agency or a missing cart yields no categories. -/
def resolveCategories (order : PurchaseOrder) (agencies : List Agency) :
    List String :=
  match agencies.find? (fun a => a.id = order.agencyId) with
  | none => []
  | some agency =>
    match agency.cart with
    | none => []
    | some cart =>
      order.items.map (fun itemId =>
        match cart.find? (fun c => c.id = itemId) with
        | some cartItem =>
            if cartItem.category ≠ "" then cartItem.category else itemId
        | none => itemId)

/-- Translation of the per-category settlement of the payment verification
endpoint (src/server.js lines 2295-2323): every unsold item of the
category is marked sold to the agency at its stored payout (default 25). -/
def sellUnsoldInCategory (agencyId : String) (now : Nat)
    (subs : List Submission) (category : String) : List Submission :=
  subs.map (fun sub =>
    if sub.market_category = category ∧ sub.sold_to = none then
      { sub with
          sold_to := some agencyId
          sold_price := some (jsOrQ sub.payout 25)
          transaction_date := some now
          status := some "Purchased" }
    else sub)

/-- Translation of the cart clearing after settlement (src/server.js lines
2333-2349): the agency documents with the buyer id get an empty cart. -/
def clearCartOf (agencyId : String) (agencies : List Agency) : List Agency :=
  agencies.map (fun a => if a.id = agencyId then { a with cart := some [] } else a)

/-- Translation of POST /api/checkout/verify-payment (src/server.js lines
2088-2365, Cosmos branch; identically src/unnamed/part_007 lines
2137-2319). The HMAC primitive is a parameter, as the code delegates it to
the crypto library. -/
def verifyPayment (hmacHex : String → String → String) (secret : String)
    (now : Nat) (razorpay_order_id razorpay_payment_id razorpay_signature : String)
    (s : St) : St × VerifyResult :=
  if razorpay_order_id = "" ∨ razorpay_payment_id = "" ∨ razorpay_signature = "" then
    (s, .missingData)
  else
    let body := razorpay_order_id ++ "|" ++ razorpay_payment_id
    let expectedSignature := hmacHex secret body
    if expectedSignature ≠ razorpay_signature then (s, .verificationFailed)
    else
      match findOrderByRazorpayId razorpay_order_id s.orders with
      | none => (s, .orderNotFound)
      | some order0 =>
        let order := paidOrder order0 razorpay_payment_id razorpay_signature now
        let orders1 := upsertOrder order s.orders
        let cats := resolveCategories order s.agencies
        let subs1 := cats.foldl (sellUnsoldInCategory order.agencyId now) s.submissions
        let agencies1 := clearCartOf order.agencyId s.agencies
        ({ orders := orders1, agencies := agencies1,
           submissions := subs1, withdrawals := s.withdrawals }, .success)

/-- Translation of the earned-amount reduction shared by the balance and
withdrawal endpoints (src/server.js lines 2800-2813): the stored payout
(default 0) of each sold item of the owner, times the contributor share
0.8. -/
def totalEarnings (userId : String) (subs : List Submission) : ℚ :=
  (subs.filter (fun i => i.userId = userId ∧ i.sold_to ≠ none)).foldl
    (fun sum i => sum + (i.payout).getD 0 * (4/5)) 0

/-- Translation of the withdrawn-amount reduction (src/server.js lines
2815-2824): the amounts of the owner requests in status pending,
processing or completed. -/
def withdrawnAmount (userId : String) (ws : List Withdrawal) : ℚ :=
  (ws.filter (fun w => w.userId = userId ∧
      (w.status = "pending" ∨ w.status = "processing" ∨ w.status = "completed"))).foldl
    (fun sum w => sum + w.amount) 0

/-- Translation of the available balance of GET /api/user/balance
(src/server.js line 2831) and of the withdrawal endpoint (line 2656). -/
def availableBalance (userId : String) (s : St) : ℚ :=
  totalEarnings userId s.submissions - withdrawnAmount userId s.withdrawals

/-- Restatement of the Ledger earned formula exactly as the specification
words it (section 4.5): the sold price of each sold item of the owner,
times the contributor share: used to compare the code against the spec. -/
def earnedSpec (userId : String) (subs : List Submission) : ℚ :=
  ((subs.filter (fun i => i.userId = userId ∧ i.sold_to ≠ none)).map
    (fun i => (i.sold_price).getD 0 * (4/5))).sum

/-- Outcome of the withdrawal endpoint: 400 responses for missing fields,
an amount under the minimum, a missing destination or an insufficient
balance, success with the remaining balance. -/
inductive WithdrawResult where
  | missingFields
  | belowMinimum
  | missingDestination
  | insufficientBalance
  | success (balance : ℚ)
deriving DecidableEq, Repr

/-- Translation of POST /api/user/withdraw-request (src/server.js lines
2576-2704; identically src/unnamed/part_007 lines 2355-2443): field check,
minimum check, destination check, balance check, then creation of one
pending withdrawal document. -/
def withdrawRequest (userId : String) (amount : ℚ)
    (upiId bankAccount ifsc accountName : String) (wid : String) (now : Nat)
    (s : St) : St × WithdrawResult :=
  if userId = "" ∨ amount = 0 then (s, .missingFields)
  else if amount < 100 then (s, .belowMinimum)
  else if upiId = "" ∧ (bankAccount = "" ∨ ifsc = "") then (s, .missingDestination)
  else
    let avail := availableBalance userId s
    if amount > avail then (s, .insufficientBalance)
    else
      ({ s with withdrawals := s.withdrawals ++
          [⟨wid, userId, amount, optStr upiId, optStr bankAccount, optStr ifsc,
            optStr accountName, "pending", now, none⟩] },
       .success (avail - amount))

/-- Concrete three-item container used by the purchase witnesses. -/
def sampleSubs : List Submission :=
  [⟨"s1", "u1", "Images", some 90, some 60, none, none, none, none⟩,
   ⟨"s2", "u2", "Images", some 50, some 5, none, none, none, none⟩,
   ⟨"s3", "u1", "Video", some 80, some 20, none, none, none, none⟩]

/-- Concrete store state used by the purchase witnesses. -/
def sampleState : St := ⟨[], [], sampleSubs, []⟩

/-- Concrete stand-in for the HMAC primitive used by witnesses and
counterexamples. -/
def sampleHmac (secret body : String) : String := secret ++ ":" ++ body

/-- Concrete pending order used by the idempotence witness. -/
def c1Order : PurchaseOrder :=
  ⟨"ord1", "a1", ["ci1"], 25, "rz1", "pending", none, none, none, 0⟩

/-- Concrete state used by the idempotence witness: one pending order of
one cart line resolving to the Images category. -/
def c1State : St :=
  ⟨[c1Order], [⟨"a1", some [⟨"ci1", "Images", 0⟩]⟩], sampleSubs, []⟩

/-- Concrete state exhibiting the duplicate-webhook failure: the cart
entry id (client-suppliable through the item spread of the cart handler)
names the Images category while its category field names Video, the order
line holds that id, and both categories hold one unsold item. -/
def cxC1State : St :=
  ⟨[⟨"ord1", "a1", ["Images"], 25, "rz1", "pending", none, none, none, 0⟩],
   [⟨"a1", some [⟨"Images", "Video", 0⟩]⟩],
   [⟨"v1", "u1", "Video", some 80, some 20, none, none, none, none⟩,
    ⟨"i1", "u2", "Images", some 90, some 10, none, none, none, none⟩], []⟩

/-- Concrete state used by the allocation counterexample: a single unsold
Images item with stored payout 40. -/
def cx2State : St :=
  ⟨[⟨"ord1", "a1", ["ci1"], 25, "rz1", "pending", none, none, none, 0⟩],
   [⟨"a1", some [⟨"ci1", "Images", 0⟩]⟩],
   [⟨"s1", "u1", "Images", some 90, some 40, none, none, none, none⟩], []⟩

/-- Concrete state used by the batch-size counterexample: six unsold
Images items. -/
def cx3State : St :=
  ⟨[⟨"ord1", "a1", ["ci1"], 25, "rz1", "pending", none, none, none, 0⟩],
   [⟨"a1", some [⟨"ci1", "Images", 0⟩]⟩],
   [⟨"s1", "u1", "Images", some 90, some 60, none, none, none, none⟩,
    ⟨"s2", "u2", "Images", some 80, some 20, none, none, none, none⟩,
    ⟨"s3", "u3", "Images", some 70, some 15, none, none, none, none⟩,
    ⟨"s4", "u4", "Images", some 60, some 10, none, none, none, none⟩,
    ⟨"s5", "u5", "Images", some 50, some 5, none, none, none, none⟩,
    ⟨"s6", "u6", "Images", some 40, some 4, none, none, none, none⟩], []⟩

/-- Concrete state used by the ledger counterexample: one item sold by the
payment verification flow while its payout field was absent, so its sold
price is the default 25 while its stored payout stays empty. -/
def cx6State : St :=
  ⟨[], [],
   [⟨"s1", "u1", "Images", some 90, none, some "a1", some 25, some 0,
     some "Purchased"⟩], []⟩

/-- Concrete state used by the ledger witness: one sold item whose stored
payout and sold price agree, and one completed withdrawal. -/
def w6State : St :=
  ⟨[], [],
   [⟨"s1", "u1", "Images", some 90, some 200, some "a1", some 200, some 0,
     some "Purchased"⟩],
   [⟨"w0", "u1", 50, some "upi@x", none, none, none, "completed", 0, none⟩]⟩

/-- Concrete state used by the exhausted-category counterexample: the only
Images item is already sold. -/
def cx8State : St :=
  ⟨[], [],
   [⟨"s1", "u1", "Images", some 90, some 60, some "a0", some 60, some 0,
     some "Purchased"⟩], []⟩

/-- Concrete container used by the checkout-skip witness: both Images
items are sold, one Video item is not. -/
def w8Subs : List Submission :=
  [⟨"s1", "u1", "Images", some 90, some 60, some "a0", some 60, some 0,
    some "Purchased"⟩,
   ⟨"s2", "u2", "Images", some 50, some 5, some "a0", some 5, some 0,
    some "Purchased"⟩,
   ⟨"s3", "u1", "Video", some 80, some 20, none, none, none, none⟩]

/-- Empty store used by the withdrawal counterexample. -/
def cx5State : St := ⟨[], [], [], []⟩

/-- Concrete state used by the withdrawal witness: one sold item earning
160 for the owner. -/
def w5State : St :=
  ⟨[], [],
   [⟨"s1", "u1", "Images", some 90, some 200, some "a1", some 200, some 0,
     some "Purchased"⟩], []⟩

/-- C7: calculatePayout computes exactly the piecewise policy of the
specification: below 50 the clamped linear rate, from 50 to 80 the middle
slope, from 80 on the steep slope. -/
theorem c7_calculatePayout_matches_policy (score : ℚ) :
    calculatePayout score = basePayoutSpec score := by
  unfold calculatePayout basePayoutSpec
  by_cases h1 : score < 50
  · simp [h1]
  · by_cases h2 : score < 80
    · simp [h1, h2, le_of_not_lt h1]
    · simp [h1, h2]

/-- C9: the payout policy is nonnegative everywhere and monotone
non-decreasing, including across the piece boundaries at 50 and 80. -/
theorem c9_calculatePayout_nonneg_mono :
    (∀ s : ℚ, 0 ≤ calculatePayout s) ∧
    (∀ s₁ s₂ : ℚ, s₁ ≤ s₂ → calculatePayout s₁ ≤ calculatePayout s₂) := by
  constructor
  · intro s
    unfold calculatePayout
    split
    · exact le_trans (by norm_num) (le_max_left _ _)
    · split <;> [skip; skip] <;> rename_i h1 h2 <;> push_neg at h1 <;> linarith
  · intro s₁ s₂ hle
    unfold calculatePayout
    by_cases ha : s₁ < 50
    · by_cases hb : s₂ < 50
      · simp only [if_pos ha, if_pos hb]
        exact max_le_max le_rfl (by linarith)
      · push_neg at hb
        by_cases hc : s₂ < 80
        · simp only [if_pos ha, if_neg (not_lt.mpr hb), if_pos hc]
          refine max_le (by linarith) (by linarith)
        · push_neg at hc
          simp only [if_pos ha, if_neg (not_lt.mpr hb), if_neg (not_lt.mpr hc)]
          refine max_le (by linarith) (by linarith)
    · push_neg at ha
      have ha2 : ¬ s₂ < 50 := not_lt.mpr (by linarith)
      by_cases hc : s₁ < 80
      · by_cases hd : s₂ < 80
        · simp only [if_neg (not_lt.mpr ha), if_pos hc, if_neg ha2, if_pos hd]
          linarith
        · push_neg at hd
          simp only [if_neg (not_lt.mpr ha), if_pos hc, if_neg ha2,
            if_neg (not_lt.mpr hd)]
          linarith
      · push_neg at hc
        have hd : ¬ s₂ < 80 := not_lt.mpr (by linarith)
        simp only [if_neg (not_lt.mpr ha), if_neg (not_lt.mpr hc), if_neg ha2,
          if_neg hd]
        linarith

/-- C9 witness: the monotonicity part applied at the concrete scores 30
and 90, which lie in different pieces of the policy. -/
theorem c9_calculatePayout_nonneg_mono_witness :
    0 ≤ calculatePayout 30 ∧ calculatePayout 30 ≤ calculatePayout 90 :=
  ⟨c9_calculatePayout_nonneg_mono.1 30,
   c9_calculatePayout_nonneg_mono.2 30 90 (by norm_num)⟩

/-- C10: adding a bundle whose category is already in the cart is rejected
and leaves the cart unchanged, and consequently any sequence of cart
add/remove/clear operations preserves the invariant that no two cart
entries share a category. -/
theorem c10_cart_category_unique :
    (∀ (cart : List CartEntry) (e : CartEntry),
      (cart.find? (fun c => c.category = e.category)).isSome →
        addToCart cart e = (cart, false)) ∧
    (∀ (cart : List CartEntry) (ops : List CartOp),
      CartCategoriesDistinct cart → CartCategoriesDistinct (applyCartOps cart ops)) := by
  constructor
  · intro cart e h
    simp [addToCart, h]
  · intro cart ops
    induction ops generalizing cart with
    | nil => intro h; exact h
    | cons op rest ih =>
      intro h
      refine ih (applyCartOp cart op) ?_
      cases op with
      | add e =>
        simp only [applyCartOp, addToCart]
        by_cases hf : (cart.find? (fun c => c.category = e.category)).isSome
        · simpa [hf] using h
        · simp only [hf, if_neg, Bool.false_eq_true, not_false_eq_true, ite_false]
          rw [List.find?_isSome] at hf
          push_neg at hf
          refine List.pairwise_append.mpr ⟨h, List.pairwise_singleton _ _, ?_⟩
          intro a ha b hb
          simp only [List.mem_singleton] at hb
          subst hb
          intro hcat
          exact absurd (of_decide_eq_true (by simpa using hf a ha)) (by simpa using hcat)
      | remove itemId =>
        exact h.sublist (List.filter_sublist _)
      | clear =>
        exact List.Pairwise.nil

/-- C10 witness: the conflict clause applied to a concrete one-entry cart
and a bundle of the same category, and the invariant applied to a concrete
operation sequence starting from the empty cart. -/
theorem c10_cart_category_unique_witness :
    addToCart [⟨"i1", "Robotics Training", 0⟩] ⟨"i2", "Robotics Training", 1⟩ =
      ([⟨"i1", "Robotics Training", 0⟩], false) ∧
    CartCategoriesDistinct (applyCartOps []
      [.add ⟨"i1", "Robotics Training", 0⟩, .add ⟨"i2", "Robotics Training", 1⟩,
       .add ⟨"i3", "Medical Imaging", 2⟩, .remove "i1", .clear]) :=
  ⟨c10_cart_category_unique.1 _ _ (by decide),
   c10_cart_category_unique.2 [] _ List.Pairwise.nil⟩

/-- Folding addition of a mapped value over a list is the sum of the map. -/
theorem foldl_add_map {α : Type} (f : α → ℚ) (l : List α) (a : ℚ) :
    l.foldl (fun acc x => acc + f x) a = a + (l.map f).sum := by
  induction l generalizing a with
  | nil => simp
  | cons x xs ih => simp [ih, add_assoc]

/-- Total quality is the sum of the default-0 quality scores. -/
theorem totalQuality_eq_sum (batch : List Submission) :
    totalQuality batch = (batch.map (fun i => (i.quality_score).getD 0)).sum := by
  unfold totalQuality
  rw [foldl_add_map, zero_add]

/-- Sum of a constant over a list. -/
theorem sum_map_const {α : Type} (l : List α) (c : ℚ) :
    (l.map (fun _ => c)).sum = (l.length : ℚ) * c := by
  induction l with
  | nil => simp
  | cons x xs ih => simp [ih]; ring

/-- Exact-sum reconciliation of the proportional split: over any nonempty
batch the per-item proceeds add up to the total batch value. -/
theorem itemProceeds_sum (b : List Submission) (hb : b ≠ []) :
    (b.map (fun sub =>
      itemProceeds ((b.length : ℚ) * 25) (totalQuality b) b.length
        ((sub.quality_score).getD 0))).sum = (b.length : ℚ) * 25 := by
  have hn : (b.length : ℚ) ≠ 0 :=
    Nat.cast_ne_zero.mpr (fun h => hb (List.length_eq_zero.mp h))
  by_cases htq : totalQuality b > 0
  · have hstep : (b.map (fun sub =>
        itemProceeds ((b.length : ℚ) * 25) (totalQuality b) b.length
          ((sub.quality_score).getD 0))).sum
        = (b.map (fun sub =>
            ((b.length : ℚ) * 25 / totalQuality b) * ((sub.quality_score).getD 0))).sum := by
      refine congrArg List.sum (List.map_congr_left ?_)
      intro sub _
      simp only [itemProceeds, if_pos htq]
      field_simp
    rw [hstep, List.sum_map_mul_left, ← totalQuality_eq_sum,
      div_mul_cancel₀ _ (ne_of_gt htq)]
  · have hstep : (b.map (fun sub =>
        itemProceeds ((b.length : ℚ) * 25) (totalQuality b) b.length
          ((sub.quality_score).getD 0))).sum
        = (b.map (fun _ => (b.length : ℚ) * 25 / (b.length : ℚ))).sum := by
      refine congrArg List.sum (List.map_congr_left ?_)
      intro sub _
      simp only [itemProceeds, if_neg htq]
    rw [hstep, sum_map_const]
    field_simp

/-- Selling an item does not change its document id. -/
theorem sellItemProportional_id (agencyId : String) (now : Nat) (tbv tq : ℚ)
    (n : ℕ) (sub : Submission) :
    (sellItemProportional agencyId now tbv tq n sub).id = sub.id := rfl

/-- Members of a list whose mapped ids have no duplicates are determined
by their id. -/
theorem eq_of_mem_of_id_eq {l : List Submission}
    (h : (l.map (fun i => i.id)).Nodup) {a b : Submission}
    (ha : a ∈ l) (hb : b ∈ l) (hid : a.id = b.id) : a = b := by
  induction l with
  | nil => cases ha
  | cons x xs ih =>
    rw [List.map_cons, List.nodup_cons] at h
    rcases List.mem_cons.mp ha with rfl | ha' <;>
      rcases List.mem_cons.mp hb with rfl | hb'
    · rfl
    · exact absurd (hid ▸ List.mem_map_of_mem (fun i => i.id) hb') h.1
    · exact absurd (hid ▸ List.mem_map_of_mem (fun i => i.id) ha') h.1
    · exact ih h.2 ha' hb'

/-- Batch members belong to the submissions container. -/
theorem batch_mem_submissions {category : String} {subs : List Submission}
    {sub : Submission} (h : sub ∈ purchaseBatch category subs) :
    sub ∈ subs := by
  have h1 : sub ∈ unsoldInCategory category subs := List.take_subset 5 _ h
  exact List.mem_of_mem_filter (List.mem_of_mem_filter h1)

/-- Shape of a successful purchase: the resulting container is the map
selling exactly the documents whose id lies in the batch. -/
theorem purchase_state (category agencyId : String) (now : Nat) (s : St)
    (hcat : category ≠ "") (haid : agencyId ≠ "")
    (hne : unsoldInCategory category s.submissions ≠ []) :
    (purchase category agencyId now s).1.submissions =
      s.submissions.map (fun sub =>
        if sub.id ∈ (purchaseBatch category s.submissions).map (fun i => i.id) then
          sellItemProportional agencyId now
            (((purchaseBatch category s.submissions).length : ℚ) * 25)
            (totalQuality (purchaseBatch category s.submissions))
            (purchaseBatch category s.submissions).length sub
        else sub) := by
  unfold purchase
  rw [if_neg (by simp [hcat, haid]),
    if_neg (fun h => hne (List.length_eq_zero.mp h))]

/-- Nonempty unsold list gives a nonempty batch. -/
theorem purchaseBatch_ne_nil {category : String} {subs : List Submission}
    (hne : unsoldInCategory category subs ≠ []) :
    purchaseBatch category subs ≠ [] := by
  unfold purchaseBatch
  cases h : unsoldInCategory category subs with
  | nil => exact absurd h hne
  | cons x xs => simp

/-- Shape of a checkout iteration on a category with available items: the
container is updated exactly as the purchase endpoint updates it, the
cost grows by the batch value and the count by the batch size. -/
theorem checkoutStep_state (agencyId : String) (now : Nat)
    (subs : List Submission) (cost : ℚ) (count : ℕ) (category : String)
    (hne : unsoldInCategory category subs ≠ []) :
    checkoutStep agencyId now (subs, cost, count) category =
      (subs.map (fun sub =>
        if sub.id ∈ (purchaseBatch category subs).map (fun i => i.id) then
          sellItemProportional agencyId now
            (((purchaseBatch category subs).length : ℚ) * 25)
            (totalQuality (purchaseBatch category subs))
            (purchaseBatch category subs).length sub
        else sub),
       cost + ((purchaseBatch category subs).length : ℚ) * 25,
       count + (purchaseBatch category subs).length) := by
  simp only [checkoutStep]
  rw [if_pos (List.length_pos.mpr hne)]
  rfl

/-- C2 (amended): in the market purchase settlement, every bought item of
the batch gets sold price equal to the proportional formula
tbv * quality / totalQuality when total quality is positive and tbv / n
otherwise, with tbv = n * 25, and the proceeds over the batch sum exactly
to n * 25; a bulk checkout iteration on the same category settles exactly
the same documents (hence the same proportional sold prices) and charges
n * 25. The payment-verification settlement instead copies the stored
payout (default 25) into sold price, see the counterexample. -/
theorem c2_purchase_proportional_split (category agencyId : String) (now : Nat)
    (s : St) (hnodup : (s.submissions.map (fun i => i.id)).Nodup)
    (hcat : category ≠ "") (haid : agencyId ≠ "")
    (hne : unsoldInCategory category s.submissions ≠ []) :
    (∀ sub ∈ purchaseBatch category s.submissions,
      ∀ x ∈ (purchase category agencyId now s).1.submissions, x.id = sub.id →
        x.sold_price = some (itemProceeds
          (((purchaseBatch category s.submissions).length : ℚ) * 25)
          (totalQuality (purchaseBatch category s.submissions))
          (purchaseBatch category s.submissions).length
          ((sub.quality_score).getD 0))) ∧
    ((purchaseBatch category s.submissions).map (fun sub => itemProceeds
        (((purchaseBatch category s.submissions).length : ℚ) * 25)
        (totalQuality (purchaseBatch category s.submissions))
        (purchaseBatch category s.submissions).length
        ((sub.quality_score).getD 0))).sum
      = ((purchaseBatch category s.submissions).length : ℚ) * 25 ∧
    (∀ (cost : ℚ) (count : ℕ),
      (checkoutStep agencyId now (s.submissions, cost, count) category).1
        = (purchase category agencyId now s).1.submissions ∧
      (checkoutStep agencyId now (s.submissions, cost, count) category).2.1
        = cost + ((purchaseBatch category s.submissions).length : ℚ) * 25) := by
  refine ⟨?_, ?_, ?_⟩
  · intro sub hsub x hx hid
    rw [purchase_state category agencyId now s hcat haid hne] at hx
    obtain ⟨y, hy, rfl⟩ := List.mem_map.mp hx
    by_cases hyid : y.id ∈ (purchaseBatch category s.submissions).map (fun i => i.id)
    · have hyidsub : y.id = sub.id := by
        simpa [hyid, sellItemProportional_id] using hid
      have : y = sub :=
        eq_of_mem_of_id_eq hnodup hy (batch_mem_submissions hsub) hyidsub
      subst this
      simp [hyid, sellItemProportional]
    · have hyidsub : y.id = sub.id := by simpa [hyid] using hid
      have : y = sub :=
        eq_of_mem_of_id_eq hnodup hy (batch_mem_submissions hsub) hyidsub
      subst this
      exact absurd (List.mem_map_of_mem (fun i => i.id) hsub) hyid
  · exact itemProceeds_sum _ (purchaseBatch_ne_nil hne)
  · intro cost count
    rw [checkoutStep_state agencyId now s.submissions cost count category hne,
      purchase_state category agencyId now s hcat haid hne]
    exact ⟨rfl, rfl⟩

/-- C3 (amended): the market purchase claims at most five unsold items of
the category, exactly the available ones when fewer than five are
available, marks exactly the batch sold, and leaves every other document
untouched; a bulk checkout iteration on the same category settles exactly
the same documents and adds exactly the batch size (hence at most five)
to the purchased count. The payment-verification settlement instead
claims every unsold item of the category, see the counterexample. -/
theorem c3_purchase_claims_at_most_five (category agencyId : String) (now : Nat)
    (s : St) (hnodup : (s.submissions.map (fun i => i.id)).Nodup)
    (hcat : category ≠ "") (haid : agencyId ≠ "")
    (hne : unsoldInCategory category s.submissions ≠ []) :
    (purchaseBatch category s.submissions).length ≤ 5 ∧
    (∀ sub ∈ purchaseBatch category s.submissions,
        sub.market_category = category ∧ sub.sold_to = none) ∧
    ((unsoldInCategory category s.submissions).length ≤ 5 →
        purchaseBatch category s.submissions = unsoldInCategory category s.submissions) ∧
    (∀ x ∈ s.submissions,
        x.id ∉ (purchaseBatch category s.submissions).map (fun i => i.id) →
        x ∈ (purchase category agencyId now s).1.submissions) ∧
    (∀ sub ∈ purchaseBatch category s.submissions,
        ∀ x ∈ (purchase category agencyId now s).1.submissions, x.id = sub.id →
          x.sold_to = some agencyId) ∧
    (∀ (cost : ℚ) (count : ℕ),
      (checkoutStep agencyId now (s.submissions, cost, count) category).1
        = (purchase category agencyId now s).1.submissions ∧
      (checkoutStep agencyId now (s.submissions, cost, count) category).2.2
        = count + (purchaseBatch category s.submissions).length) := by
  refine ⟨?_, ?_, ?_, ?_, ?_, ?_⟩
  · simp [purchaseBatch]
  · intro sub hsub
    have h1 : sub ∈ unsoldInCategory category s.submissions := List.take_subset 5 _ hsub
    unfold unsoldInCategory at h1
    have h2 := List.mem_filter.mp h1
    have h3 := List.mem_filter.mp h2.1
    exact ⟨of_decide_eq_true h3.2, of_decide_eq_true h2.2⟩
  · intro hle
    exact List.take_of_length_le hle
  · intro x hx hxid
    rw [purchase_state category agencyId now s hcat haid hne]
    exact List.mem_map.mpr ⟨x, hx, by simp [hxid]⟩
  · intro sub hsub x hx hid
    rw [purchase_state category agencyId now s hcat haid hne] at hx
    obtain ⟨y, hy, rfl⟩ := List.mem_map.mp hx
    by_cases hyid : y.id ∈ (purchaseBatch category s.submissions).map (fun i => i.id)
    · have hyidsub : y.id = sub.id := by
        simpa [hyid, sellItemProportional_id] using hid
      have : y = sub :=
        eq_of_mem_of_id_eq hnodup hy (batch_mem_submissions hsub) hyidsub
      subst this
      simp [hyid, sellItemProportional]
    · have hyidsub : y.id = sub.id := by simpa [hyid] using hid
      have : y = sub :=
        eq_of_mem_of_id_eq hnodup hy (batch_mem_submissions hsub) hyidsub
      subst this
      exact absurd (List.mem_map_of_mem (fun i => i.id) hsub) hyid
  · intro cost count
    rw [checkoutStep_state agencyId now s.submissions cost count category hne,
      purchase_state category agencyId now s hcat haid hne]
    exact ⟨rfl, rfl⟩

/-- C2 witness: the proportional split theorem applied to a concrete
purchase of the Images category with two unsold items. -/
theorem c2_purchase_proportional_split_witness :
    (∀ sub ∈ purchaseBatch "Images" sampleState.submissions,
      ∀ x ∈ (purchase "Images" "a1" 0 sampleState).1.submissions, x.id = sub.id →
        x.sold_price = some (itemProceeds
          (((purchaseBatch "Images" sampleState.submissions).length : ℚ) * 25)
          (totalQuality (purchaseBatch "Images" sampleState.submissions))
          (purchaseBatch "Images" sampleState.submissions).length
          ((sub.quality_score).getD 0))) ∧
    ((purchaseBatch "Images" sampleState.submissions).map (fun sub => itemProceeds
        (((purchaseBatch "Images" sampleState.submissions).length : ℚ) * 25)
        (totalQuality (purchaseBatch "Images" sampleState.submissions))
        (purchaseBatch "Images" sampleState.submissions).length
        ((sub.quality_score).getD 0))).sum
      = ((purchaseBatch "Images" sampleState.submissions).length : ℚ) * 25 ∧
    (∀ (cost : ℚ) (count : ℕ),
      (checkoutStep "a1" 0 (sampleState.submissions, cost, count) "Images").1
        = (purchase "Images" "a1" 0 sampleState).1.submissions ∧
      (checkoutStep "a1" 0 (sampleState.submissions, cost, count) "Images").2.1
        = cost + ((purchaseBatch "Images" sampleState.submissions).length : ℚ) * 25) :=
  c2_purchase_proportional_split "Images" "a1" 0 sampleState
    (by decide) (by decide) (by decide) (by decide)

/-- C3 witness: the batch-size theorem applied to the same concrete
purchase. -/
theorem c3_purchase_claims_at_most_five_witness :
    (purchaseBatch "Images" sampleState.submissions).length ≤ 5 ∧
    (∀ sub ∈ purchaseBatch "Images" sampleState.submissions,
        sub.market_category = "Images" ∧ sub.sold_to = none) ∧
    ((unsoldInCategory "Images" sampleState.submissions).length ≤ 5 →
        purchaseBatch "Images" sampleState.submissions
          = unsoldInCategory "Images" sampleState.submissions) ∧
    (∀ x ∈ sampleState.submissions,
        x.id ∉ (purchaseBatch "Images" sampleState.submissions).map (fun i => i.id) →
        x ∈ (purchase "Images" "a1" 0 sampleState).1.submissions) ∧
    (∀ sub ∈ purchaseBatch "Images" sampleState.submissions,
        ∀ x ∈ (purchase "Images" "a1" 0 sampleState).1.submissions, x.id = sub.id →
          x.sold_to = some "a1") ∧
    (∀ (cost : ℚ) (count : ℕ),
      (checkoutStep "a1" 0 (sampleState.submissions, cost, count) "Images").1
        = (purchase "Images" "a1" 0 sampleState).1.submissions ∧
      (checkoutStep "a1" 0 (sampleState.submissions, cost, count) "Images").2.2
        = count + (purchaseBatch "Images" sampleState.submissions).length) :=
  c3_purchase_claims_at_most_five "Images" "a1" 0 sampleState
    (by decide) (by decide) (by decide) (by decide)

/-- C4: when the supplied signature differs from the HMAC of the provider
order reference joined with the payment reference under the shared
secret, payment verification rejects the confirmation and the whole store
state is returned unchanged: no order transition, no item sale, no
balance credit. -/
theorem c4_signature_mismatch_no_mutation (hm : String → String → String)
    (secret : String) (now : Nat) (oid pid sig : String) (s : St)
    (hoid : oid ≠ "") (hpid : pid ≠ "") (hsig : sig ≠ "")
    (hmismatch : hm secret (oid ++ "|" ++ pid) ≠ sig) :
    verifyPayment hm secret now oid pid sig s = (s, .verificationFailed) := by
  unfold verifyPayment
  rw [if_neg (by simp [hoid, hpid, hsig])]
  exact if_pos hmismatch

/-- C4 witness: a concrete confirmation with a wrong signature against a
concrete store is rejected without mutation. -/
theorem c4_signature_mismatch_no_mutation_witness :
    verifyPayment sampleHmac "k" 0 "rz1" "pay1" "bad" c1State
      = (c1State, .verificationFailed) :=
  c4_signature_mismatch_no_mutation sampleHmac "k" 0 "rz1" "pay1" "bad" c1State
    (by decide) (by decide) (by decide) (by decide)

/-- C2 counterexample: the payment-verification settlement of a one-item
Images batch records sold price 40 (the stored payout), not the
proportional value itemProceeds 25 90 1 90 = 25 the claim requires, so
the batch sum is 40 rather than 1 * 25. -/
theorem c2_counterexample_verify_payment_price :
    ((verifyPayment sampleHmac "k" 5 "rz1" "pay1" "k:rz1|pay1" cx2State).1.submissions.map
        (fun i => i.sold_price)) = [some 40] ∧
    (40 : ℚ) ≠ itemProceeds ((1 : ℚ) * 25) 90 1 90 := by
  refine ⟨by decide, ?_⟩
  norm_num [itemProceeds]

/-- C3 counterexample: the payment-verification settlement of an order
whose single line resolves to the Images category claims all six unsold
items of the category, exceeding the fixed batch size of five. -/
theorem c3_counterexample_verify_payment_claims_all :
    (cx3State.submissions.filter (fun i => i.sold_to ≠ none)).length = 0 ∧
    ((verifyPayment sampleHmac "k" 5 "rz1" "pay1" "k:rz1|pay1" cx3State).1.submissions.filter
        (fun i => i.sold_to ≠ none)).length = 6 ∧
    ¬ (6 : ℕ) ≤ 5 := by
  exact ⟨by decide, by decide, by decide⟩

/-- C5 counterexample: a withdrawal of 50 against an empty balance
exceeds the available balance, yet the endpoint rejects it with the
below-minimum error because the minimum check runs before the balance
check. -/
theorem c5_counterexample_below_minimum_first :
    withdrawRequest "u1" 50 "upi@x" "" "" "" "w1" 0 cx5State
      = (cx5State, WithdrawResult.belowMinimum) ∧
    availableBalance "u1" cx5State < 50 ∧
    WithdrawResult.belowMinimum ≠ WithdrawResult.insufficientBalance := by
  refine ⟨by decide, ?_, by decide⟩
  norm_num [availableBalance, totalEarnings, withdrawnAmount, cx5State]

/-- C6 counterexample: for an item sold by the payment-verification flow
with no stored payout, the ledger computes available balance 0, while the
sold-price formula of the claim gives 20: the code sums the stored payout
field, not the sold price. -/
theorem c6_counterexample_payout_vs_sold_price :
    availableBalance "u1" cx6State = 0 ∧
    earnedSpec "u1" cx6State.submissions - withdrawnAmount "u1" cx6State.withdrawals = 20 ∧
    (0 : ℚ) ≠ 20 := by
  refine ⟨?_, ?_, by norm_num⟩
  · norm_num [availableBalance, totalEarnings, withdrawnAmount, cx6State,
      List.filter_cons, List.filter_nil, Option.some_ne_none]
  · norm_num [earnedSpec, withdrawnAmount, cx6State,
      List.filter_cons, List.filter_nil, Option.some_ne_none]

/-- C8 counterexample: a purchase of a category whose items are all sold
is answered with the 404 not-found error and no settlement, so the
zero-size batch is reported as an error by this endpoint. -/
theorem c8_counterexample_purchase_404 :
    purchase "Images" "a1" 0 cx8State = (cx8State, PurchaseResult.notFound) ∧
    (unsoldInCategory "Images" cx8State.submissions).length = 0 := by
  exact ⟨by decide, by decide⟩

/-- C5 (amended): for a well-formed request (user id and destination
present), the minimum check runs first: a nonzero amount under 100 fails
below-minimum, an amount of at least 100 exceeding the available balance
fails insufficient-balance, and in both cases the store is unchanged;
otherwise exactly one pending withdrawal document is appended. -/
theorem c5_withdraw_validation (userId : String) (amount : ℚ)
    (upiId bankAccount ifsc accountName wid : String) (now : Nat) (s : St)
    (huid : userId ≠ "")
    (hdest : ¬(upiId = "" ∧ (bankAccount = "" ∨ ifsc = ""))) :
    (amount ≠ 0 → amount < 100 →
      withdrawRequest userId amount upiId bankAccount ifsc accountName wid now s
        = (s, .belowMinimum)) ∧
    (100 ≤ amount → availableBalance userId s < amount →
      withdrawRequest userId amount upiId bankAccount ifsc accountName wid now s
        = (s, .insufficientBalance)) ∧
    (100 ≤ amount → amount ≤ availableBalance userId s →
      withdrawRequest userId amount upiId bankAccount ifsc accountName wid now s
        = ({ s with withdrawals := s.withdrawals ++
              [⟨wid, userId, amount, optStr upiId, optStr bankAccount, optStr ifsc,
                optStr accountName, "pending", now, none⟩] },
           .success (availableBalance userId s - amount))) := by
  refine ⟨?_, ?_, ?_⟩
  · intro hnz hmin
    unfold withdrawRequest
    rw [if_neg (by simp [huid, hnz])]
    exact if_pos hmin
  · intro hmin hbal
    have hnz : amount ≠ 0 := by intro h; rw [h] at hmin; norm_num at hmin
    unfold withdrawRequest
    rw [if_neg (by simp [huid, hnz]), if_neg (not_lt.mpr hmin), if_neg hdest]
    exact if_pos hbal
  · intro hmin hbal
    have hnz : amount ≠ 0 := by intro h; rw [h] at hmin; norm_num at hmin
    unfold withdrawRequest
    rw [if_neg (by simp [huid, hnz]), if_neg (not_lt.mpr hmin), if_neg hdest]
    exact if_neg (not_lt.mpr hbal)

/-- C5 witness: the validation theorem applied to a concrete owner with
160 available: a request of 100 succeeds and appends one pending
document. -/
theorem c5_withdraw_validation_witness :
    ((100 : ℚ) ≠ 0 → (100 : ℚ) < 100 →
      withdrawRequest "u1" 100 "upi@x" "" "" "n" "w1" 3 w5State
        = (w5State, .belowMinimum)) ∧
    (100 ≤ (100 : ℚ) → availableBalance "u1" w5State < 100 →
      withdrawRequest "u1" 100 "upi@x" "" "" "n" "w1" 3 w5State
        = (w5State, .insufficientBalance)) ∧
    (100 ≤ (100 : ℚ) → (100 : ℚ) ≤ availableBalance "u1" w5State →
      withdrawRequest "u1" 100 "upi@x" "" "" "n" "w1" 3 w5State
        = ({ w5State with withdrawals := w5State.withdrawals ++
              [⟨"w1", "u1", 100, optStr "upi@x", optStr "", optStr "",
                optStr "n", "pending", 3, none⟩] },
           .success (availableBalance "u1" w5State - 100))) :=
  c5_withdraw_validation "u1" 100 "upi@x" "" "" "n" "w1" 3 w5State
    (by decide) (by decide)

/-- C6 (amended): the available balance equals earned minus withdrawn
where earned sums the stored payout (0 when absent) times the contributor
share 0.8 over the sold items of the owner; this agrees with the
sold-price formula of the claim exactly when every sold item of the owner
has stored payout equal to its sold price. -/
theorem c6_available_balance_spec (userId : String) (s : St)
    (h : ∀ i ∈ s.submissions, i.userId = userId → i.sold_to ≠ none →
        (i.payout).getD 0 = (i.sold_price).getD 0) :
    availableBalance userId s
      = earnedSpec userId s.submissions - withdrawnAmount userId s.withdrawals := by
  unfold availableBalance earnedSpec totalEarnings
  simp only [foldl_add_map, zero_add]
  congr 1
  refine congrArg List.sum (List.map_congr_left ?_)
  intro i hi
  have h2 := List.mem_filter.mp hi
  have h3 : i.userId = userId ∧ i.sold_to ≠ none := of_decide_eq_true h2.2
  rw [h i h2.1 h3.1 h3.2]

/-- C6 witness: the ledger theorem applied to a concrete owner with one
sold item whose payout and sold price agree and one completed
withdrawal. -/
theorem c6_available_balance_spec_witness :
    availableBalance "u1" w6State
      = earnedSpec "u1" w6State.submissions - withdrawnAmount "u1" w6State.withdrawals :=
  c6_available_balance_spec "u1" w6State (by decide)

/-- A category with every item sold has no unsold items. -/
theorem unsold_nil_of_all_sold (c : String) (subs : List Submission)
    (h : ∀ sub ∈ subs, sub.market_category = c → sub.sold_to ≠ none) :
    unsoldInCategory c subs = [] := by
  unfold unsoldInCategory
  rw [List.filter_eq_nil_iff]
  intro a ha
  have h2 := List.mem_filter.mp ha
  have hcat : a.market_category = c := of_decide_eq_true h2.2
  have hsold := h a h2.1 hcat
  simp [hsold]

/-- A checkout iteration on an exhausted category changes nothing: no
submissions, no cost, no count. -/
theorem checkoutStep_skips_exhausted (agencyId : String) (now : Nat)
    (acc : List Submission × ℚ × ℕ) (c : String)
    (h : ∀ sub ∈ acc.1, sub.market_category = c → sub.sold_to ≠ none) :
    checkoutStep agencyId now acc c = acc := by
  simp only [checkoutStep]
  rw [unsold_nil_of_all_sold c acc.1 h]
  simp

/-- A checkout iteration can only sell items, so a category whose items
are all sold stays that way. -/
theorem checkoutStep_preserves_all_sold (agencyId : String) (now : Nat)
    (c : String) (acc : List Submission × ℚ × ℕ) (cat : String)
    (h : ∀ sub ∈ acc.1, sub.market_category = c → sub.sold_to ≠ none) :
    ∀ sub ∈ (checkoutStep agencyId now acc cat).1,
      sub.market_category = c → sub.sold_to ≠ none := by
  intro sub hsub
  simp only [checkoutStep] at hsub
  by_cases hc : 0 < (unsoldInCategory cat acc.1).length
  · rw [if_pos hc] at hsub
    obtain ⟨y, hy, rfl⟩ := List.mem_map.mp hsub
    by_cases hid : y.id ∈ ((unsoldInCategory cat acc.1).take 5).map (fun i => i.id)
    · rw [if_pos hid]
      intro _
      simp [sellItemProportional]
    · rw [if_neg hid]
      exact h y hy
  · rw [if_neg hc] at hsub
    exact h sub hsub

/-- C8 (amended): in the bulk checkout flow a category with zero unsold
items yields a zero batch and is skipped as a non-error: the whole
checkout result (container, total cost, purchased count) is the same as
if the exhausted category were absent from the order, so nothing is
credited for it and the rest of the order settles normally. The
single-category purchase endpoint instead answers 404, see the
counterexample. -/
theorem c8_checkout_skips_exhausted_category (agencyId : String) (now : Nat)
    (cs₁ cs₂ : List String) (c : String) (subs : List Submission)
    (h : ∀ sub ∈ subs, sub.market_category = c → sub.sold_to ≠ none) :
    (unsoldInCategory c subs).length = 0 ∧
    checkoutLoop agencyId now (cs₁ ++ c :: cs₂) subs
      = checkoutLoop agencyId now (cs₁ ++ cs₂) subs := by
  constructor
  · rw [unsold_nil_of_all_sold c subs h]
    rfl
  · unfold checkoutLoop
    have main : ∀ (l : List String) (acc : List Submission × ℚ × ℕ),
        (∀ sub ∈ acc.1, sub.market_category = c → sub.sold_to ≠ none) →
        List.foldl (checkoutStep agencyId now) acc (l ++ c :: cs₂)
          = List.foldl (checkoutStep agencyId now) acc (l ++ cs₂) := by
      intro l
      induction l with
      | nil =>
        intro acc hacc
        simp only [List.nil_append, List.foldl_cons]
        rw [checkoutStep_skips_exhausted agencyId now acc c hacc]
      | cons d ds ih =>
        intro acc hacc
        simp only [List.cons_append, List.foldl_cons]
        exact ih _ (checkoutStep_preserves_all_sold agencyId now c acc d hacc)
    exact main cs₁ (subs, 0, 0) h

/-- C8 witness: the checkout-skip theorem applied to a concrete order of
the Video and Images categories where all Images items are sold. -/
theorem c8_checkout_skips_exhausted_category_witness :
    (unsoldInCategory "Images" w8Subs).length = 0 ∧
    checkoutLoop "a1" 0 (["Video"] ++ "Images" :: []) w8Subs
      = checkoutLoop "a1" 0 (["Video"] ++ []) w8Subs :=
  c8_checkout_skips_exhausted_category "a1" 0 ["Video"] [] "Images" w8Subs
    (by decide)

/-- Replacing the documents with the id of the updated order leaves the
updated order as the first match of the provider reference lookup, since
the update keeps the reference and other documents are untouched. -/
theorem find?_map_replace (oid : String) (orders : List PurchaseOrder)
    (o o' : PurchaseOrder)
    (hfind : orders.find? (fun x => x.razorpayOrderId = oid) = some o)
    (hid : o'.id = o.id) (hrz : o'.razorpayOrderId = oid) :
    (orders.map (fun x => if x.id = o'.id then o' else x)).find?
      (fun x => x.razorpayOrderId = oid) = some o' := by
  induction orders with
  | nil => simp at hfind
  | cons x xs ih =>
    rw [List.map_cons]
    by_cases hx : x.razorpayOrderId = oid
    · rw [List.find?_cons_of_pos _ (by simp [hx])] at hfind
      have hxo : x = o := Option.some.inj hfind
      have hcond : x.id = o'.id := by rw [hxo, hid]
      rw [if_pos hcond]
      exact List.find?_cons_of_pos _ (by simp [hrz])
    · rw [List.find?_cons_of_neg _ (by simp [hx])] at hfind
      by_cases hxid : x.id = o'.id
      · rw [if_pos hxid]
        exact List.find?_cons_of_pos _ (by simp [hrz])
      · rw [if_neg hxid, List.find?_cons_of_neg _ (by simp [hx])]
        exact ih hfind

/-- After upserting the paid version of the found order, the provider
reference lookup finds the paid version. -/
theorem findOrder_after_upsert (oid : String) (orders : List PurchaseOrder)
    (o o' : PurchaseOrder)
    (hfind : findOrderByRazorpayId oid orders = some o)
    (hid : o'.id = o.id) (hrz : o'.razorpayOrderId = oid) :
    findOrderByRazorpayId oid (upsertOrder o' orders) = some o' := by
  unfold findOrderByRazorpayId at hfind ⊢
  unfold upsertOrder
  have hmem : o ∈ orders := List.mem_of_find?_eq_some hfind
  rw [if_pos (List.any_eq_true.mpr ⟨o, hmem, by simp [hid]⟩)]
  exact find?_map_replace oid orders o o' hfind hid hrz

/-- Clearing the buyer cart commutes with the agency lookup. -/
theorem find?_clearCartOf (aid : String) (agencies : List Agency) :
    (clearCartOf aid agencies).find? (fun a => a.id = aid)
      = (agencies.find? (fun a => a.id = aid)).map
          (fun a => { a with cart := some [] }) := by
  unfold clearCartOf
  induction agencies with
  | nil => simp
  | cons x xs ih =>
    rw [List.map_cons]
    by_cases hx : x.id = aid
    · rw [if_pos hx, List.find?_cons_of_pos _ (by simp [hx]),
        List.find?_cons_of_pos _ (by simp [hx])]
      rfl
    · rw [if_neg hx, List.find?_cons_of_neg _ (by simp [hx]),
        List.find?_cons_of_neg _ (by simp [hx])]
      exact ih

/-- After the cart of the buyer is cleared, the category resolution of a
later duplicate settlement falls back to the raw order line ids: the
empty cart matches no line, so each line maps to itself. -/
theorem resolveCategories_after_clear (o : PurchaseOrder)
    (agencies : List Agency) :
    resolveCategories o (clearCartOf o.agencyId agencies)
      = match agencies.find? (fun a => a.id = o.agencyId) with
        | none => []
        | some _ => o.items := by
  unfold resolveCategories
  rw [find?_clearCartOf]
  cases h : agencies.find? (fun a => a.id = o.agencyId) with
  | none => rfl
  | some a => simp

/-- Selling the unsold items of a category no submission belongs to
changes nothing. -/
theorem sellUnsold_noop (agencyId : String) (now : Nat)
    (subs : List Submission) (cat : String)
    (h : ∀ sub ∈ subs, sub.market_category ≠ cat) :
    sellUnsoldInCategory agencyId now subs cat = subs := by
  unfold sellUnsoldInCategory
  have hpt : ∀ sub ∈ subs,
      (if sub.market_category = cat ∧ sub.sold_to = none then
        { sub with
            sold_to := some agencyId
            sold_price := some (jsOrQ sub.payout 25)
            transaction_date := some now
            status := some "Purchased" }
      else sub) = id sub :=
    fun sub hs => if_neg (by simp [h sub hs])
  rw [List.map_congr_left hpt, List.map_id]

/-- The per-category settlement preserves any property of the category
field of every document. -/
theorem sellUnsold_preserves_category_prop (P : String → Prop)
    (agencyId : String) (now : Nat) (subs : List Submission) (cat : String)
    (h : ∀ sub ∈ subs, P sub.market_category) :
    ∀ x ∈ sellUnsoldInCategory agencyId now subs cat, P x.market_category := by
  intro x hx
  unfold sellUnsoldInCategory at hx
  obtain ⟨y, hy, rfl⟩ := List.mem_map.mp hx
  by_cases hc : y.market_category = cat ∧ y.sold_to = none
  · rw [if_pos hc]
    exact h y hy
  · rw [if_neg hc]
    exact h y hy

/-- Folding the per-category settlement over categories no submission
belongs to changes nothing. -/
theorem foldl_sellUnsold_noop (agencyId : String) (now : Nat) :
    ∀ (cats : List String) (subs : List Submission),
      (∀ sub ∈ subs, sub.market_category ∉ cats) →
      cats.foldl (sellUnsoldInCategory agencyId now) subs = subs := by
  intro cats
  induction cats with
  | nil => intro subs _; rfl
  | cons c cs ih =>
    intro subs h
    rw [List.foldl_cons,
      sellUnsold_noop agencyId now subs c (fun sub hs => by
        have := h sub hs
        simp only [List.mem_cons, not_or] at this
        exact this.1)]
    exact ih subs (fun sub hs => by
      have := h sub hs
      simp only [List.mem_cons, not_or] at this
      exact this.2)

/-- Folding the per-category settlement preserves any property of the
category field of every document. -/
theorem foldl_sellUnsold_preserves (P : String → Prop) (agencyId : String)
    (now : Nat) :
    ∀ (cats : List String) (subs : List Submission),
      (∀ sub ∈ subs, P sub.market_category) →
      ∀ x ∈ cats.foldl (sellUnsoldInCategory agencyId now) subs,
        P x.market_category := by
  intro cats
  induction cats with
  | nil => intro subs h; exact h
  | cons c cs ih =>
    intro subs h
    rw [List.foldl_cons]
    exact ih _ (sellUnsold_preserves_category_prop P agencyId now subs c h)

/-- Shape of a successful payment verification: the found order is paid
and upserted, the categories are resolved against the buyer cart, every
unsold item of each category is sold, and the cart is cleared. -/
theorem verifyPayment_success_eq (hm : String → String → String)
    (secret : String) (now : Nat) (oid pid sig : String) (s : St)
    (o : PurchaseOrder)
    (hoid : oid ≠ "") (hpid : pid ≠ "") (hsig : sig ≠ "")
    (hmatch : hm secret (oid ++ "|" ++ pid) = sig)
    (hfind : findOrderByRazorpayId oid s.orders = some o) :
    verifyPayment hm secret now oid pid sig s =
      ({ orders := upsertOrder (paidOrder o pid sig now) s.orders,
         agencies := clearCartOf o.agencyId s.agencies,
         submissions := (resolveCategories (paidOrder o pid sig now) s.agencies).foldl
           (sellUnsoldInCategory o.agencyId now) s.submissions,
         withdrawals := s.withdrawals }, .success) := by
  unfold verifyPayment
  rw [if_neg (by simp [hoid, hpid, hsig]), if_neg (by simp [hmatch]), hfind]
  rfl

/-- The available balance only depends on the submissions and withdrawals
containers. -/
theorem availableBalance_congr (uid : String) (s₂ s₁ : St)
    (hs : s₂.submissions = s₁.submissions)
    (hw : s₂.withdrawals = s₁.withdrawals) :
    availableBalance uid s₂ = availableBalance uid s₁ := by
  unfold availableBalance
  rw [hs, hw]

/-- Conditional idempotence of the payment verification flow: when no
submission category equals a raw order line id, a duplicate valid
confirmation leaves the item container and every ledger balance
unchanged and reports success. The hypothesis is essential: after the
first settlement clears the cart, the duplicate resolves each raw line
id as a category name, so a collision makes the duplicate claim new
inventory — see the failing-input evaluation below. -/
theorem duplicate_settlement_idempotent_of_no_collision (hm : String → String → String)
    (secret : String) (now₁ now₂ : Nat) (oid pid sig : String) (s : St)
    (o : PurchaseOrder) (s₁ s₂ : St) (r₁ r₂ : VerifyResult)
    (hoid : oid ≠ "") (hpid : pid ≠ "") (hsig : sig ≠ "")
    (hmatch : hm secret (oid ++ "|" ++ pid) = sig)
    (hfind : findOrderByRazorpayId oid s.orders = some o)
    (hdisj : ∀ sub ∈ s.submissions, sub.market_category ∉ o.items)
    (h1 : verifyPayment hm secret now₁ oid pid sig s = (s₁, r₁))
    (h2 : verifyPayment hm secret now₂ oid pid sig s₁ = (s₂, r₂)) :
    s₂.submissions = s₁.submissions ∧
    (∀ uid, availableBalance uid s₂ = availableBalance uid s₁) ∧
    r₂ = VerifyResult.success := by
  have hfind' : s.orders.find? (fun x => x.razorpayOrderId = oid) = some o := hfind
  have hpo := List.find?_some hfind'
  have hrzo : o.razorpayOrderId = oid := of_decide_eq_true hpo
  have hEq1 := verifyPayment_success_eq hm secret now₁ oid pid sig s o
    hoid hpid hsig hmatch hfind
  rw [h1, Prod.mk.injEq] at hEq1
  obtain ⟨hs1, hr1⟩ := hEq1
  subst hs1
  have hfind1 : findOrderByRazorpayId oid
      (upsertOrder (paidOrder o pid sig now₁) s.orders)
      = some (paidOrder o pid sig now₁) :=
    findOrder_after_upsert oid s.orders o (paidOrder o pid sig now₁) hfind rfl hrzo
  have hEq2 := verifyPayment_success_eq hm secret now₂ oid pid sig
    { orders := upsertOrder (paidOrder o pid sig now₁) s.orders,
      agencies := clearCartOf o.agencyId s.agencies,
      submissions := (resolveCategories (paidOrder o pid sig now₁) s.agencies).foldl
        (sellUnsoldInCategory o.agencyId now₁) s.submissions,
      withdrawals := s.withdrawals }
    (paidOrder o pid sig now₁) hoid hpid hsig hmatch hfind1
  rw [h2, Prod.mk.injEq] at hEq2
  obtain ⟨hs2, hr2⟩ := hEq2
  subst hs2
  have hinv : ∀ x ∈ (resolveCategories (paidOrder o pid sig now₁) s.agencies).foldl
      (sellUnsoldInCategory o.agencyId now₁) s.submissions,
      x.market_category ∉ o.items :=
    foldl_sellUnsold_preserves (fun c => c ∉ o.items) o.agencyId now₁ _
      s.submissions hdisj
  have hnoop : (resolveCategories
        (paidOrder (paidOrder o pid sig now₁) pid sig now₂)
        (clearCartOf o.agencyId s.agencies)).foldl
      (sellUnsoldInCategory (paidOrder o pid sig now₁).agencyId now₂)
      ((resolveCategories (paidOrder o pid sig now₁) s.agencies).foldl
        (sellUnsoldInCategory o.agencyId now₁) s.submissions)
      = (resolveCategories (paidOrder o pid sig now₁) s.agencies).foldl
        (sellUnsoldInCategory o.agencyId now₁) s.submissions := by
    have hres := resolveCategories_after_clear
      (paidOrder (paidOrder o pid sig now₁) pid sig now₂) s.agencies
    rw [show clearCartOf o.agencyId s.agencies
        = clearCartOf (paidOrder (paidOrder o pid sig now₁) pid sig now₂).agencyId
            s.agencies from rfl, hres]
    cases h : s.agencies.find?
        (fun a => a.id = (paidOrder (paidOrder o pid sig now₁) pid sig now₂).agencyId) with
    | none => rfl
    | some a =>
      exact foldl_sellUnsold_noop _ now₂ _ _ hinv
  exact ⟨hnoop, fun uid => availableBalance_congr uid _ _ hnoop rfl, hr2⟩

/-- Instantiation of the conditional idempotence result: a concrete
duplicate webhook delivery against a store with one order, one cart line
and three listed items changes no submission and no balance the second
time and reports success. -/
theorem duplicate_settlement_idempotent_of_no_collision_example :
    ((verifyPayment sampleHmac "k" 2 "rz1" "pay1" "k:rz1|pay1"
        (verifyPayment sampleHmac "k" 1 "rz1" "pay1" "k:rz1|pay1" c1State).1).1.submissions
      = (verifyPayment sampleHmac "k" 1 "rz1" "pay1" "k:rz1|pay1" c1State).1.submissions) ∧
    (∀ uid, availableBalance uid
        (verifyPayment sampleHmac "k" 2 "rz1" "pay1" "k:rz1|pay1"
          (verifyPayment sampleHmac "k" 1 "rz1" "pay1" "k:rz1|pay1" c1State).1).1
      = availableBalance uid
        (verifyPayment sampleHmac "k" 1 "rz1" "pay1" "k:rz1|pay1" c1State).1) ∧
    (verifyPayment sampleHmac "k" 2 "rz1" "pay1" "k:rz1|pay1"
        (verifyPayment sampleHmac "k" 1 "rz1" "pay1" "k:rz1|pay1" c1State).1).2
      = VerifyResult.success :=
  duplicate_settlement_idempotent_of_no_collision sampleHmac "k" 1 2 "rz1" "pay1" "k:rz1|pay1"
    c1State c1Order
    (verifyPayment sampleHmac "k" 1 "rz1" "pay1" "k:rz1|pay1" c1State).1
    (verifyPayment sampleHmac "k" 2 "rz1" "pay1" "k:rz1|pay1"
      (verifyPayment sampleHmac "k" 1 "rz1" "pay1" "k:rz1|pay1" c1State).1).1
    (verifyPayment sampleHmac "k" 1 "rz1" "pay1" "k:rz1|pay1" c1State).2
    (verifyPayment sampleHmac "k" 2 "rz1" "pay1" "k:rz1|pay1"
      (verifyPayment sampleHmac "k" 1 "rz1" "pay1" "k:rz1|pay1" c1State).1).2
    (by decide) (by decide) (by decide) (by decide) rfl (by decide) rfl rfl

/-- C1: evaluation of the code at the failing input. The cart handler
spreads the client body over the generated entry, so a cart entry can
carry id Images while its category field says Video; the first valid
webhook settles the Video item and clears the cart, and the duplicate
webhook — which the claim requires to be a no-op on items and balances —
falls back to the raw line id Images, claims the unsold Images item of a
different owner, and still reports success: one item is sold after one
delivery, two after the duplicate. -/
theorem c1_duplicate_webhook_claims_new_inventory :
    ((verifyPayment sampleHmac "k" 1 "rz1" "pay1" "k:rz1|pay1" cxC1State).1.submissions.filter
        (fun i => i.sold_to ≠ none)).length = 1 ∧
    ((verifyPayment sampleHmac "k" 2 "rz1" "pay1" "k:rz1|pay1"
        (verifyPayment sampleHmac "k" 1 "rz1" "pay1" "k:rz1|pay1" cxC1State).1).1.submissions.filter
        (fun i => i.sold_to ≠ none)).length = 2 ∧
    ((verifyPayment sampleHmac "k" 1 "rz1" "pay1" "k:rz1|pay1" cxC1State).1.submissions.filter
        (fun i => i.userId = "u2" ∧ i.sold_to ≠ none)).length = 0 ∧
    ((verifyPayment sampleHmac "k" 2 "rz1" "pay1" "k:rz1|pay1"
        (verifyPayment sampleHmac "k" 1 "rz1" "pay1" "k:rz1|pay1" cxC1State).1).1.submissions.filter
        (fun i => i.userId = "u2" ∧ i.sold_to ≠ none)).length = 1 ∧
    (verifyPayment sampleHmac "k" 2 "rz1" "pay1" "k:rz1|pay1"
        (verifyPayment sampleHmac "k" 1 "rz1" "pay1" "k:rz1|pay1" cxC1State).1).2
      = VerifyResult.success := by
  exact ⟨by decide, by decide, by decide, by decide, by decide⟩

end MData
